import Mathlib

/-!
Verification development for the Smart-Dabba water-quality services.

Shallow embedding of the Python sources:
  - src/SmartDabba/app.py          (data-layer Flask API, namespace App)
  - src/SmartDabba/water_modeler.py (ML layer, namespace Modeler)
  - src/SmartDabba/ml_api.py        (job system, namespace MLApi)

Numeric values are modelled as rationals; the Python float arithmetic of the
sources is idealised as exact rational arithmetic.  Python round(x, 2) is
modelled as round-half-to-even at two decimal places, matching the semantics
of the Python builtin on exact values.
-/

/-- Round-half-to-even of a rational to an integer, the tie-breaking used by
the Python builtin round. -/
def roundHalfEven (q : ℚ) : ℤ :=
  let f := ⌊q⌋
  let r := q - (f : ℚ)
  if r < 1/2 then f
  else if 1/2 < r then f + 1
  else if f % 2 = 0 then f else f + 1

/-- Model of the Python expression round(x, 2). -/
def round2 (q : ℚ) : ℚ := (roundHalfEven (q * 100) : ℚ) / 100

namespace App

/-- CA_FACTOR from app.py line 18. -/
def CA_FACTOR : ℚ := 2.497

/-- MG_FACTOR from app.py line 19. -/
def MG_FACTOR : ℚ := 4.118

/-- calculate_total_hardness from app.py (lines 43-50): the Python arguments
may be None, modelled with Option; a missing Ca or Mg yields 0, otherwise
the rounded weighted sum. -/
def calculate_total_hardness (ca mg : Option ℚ) : ℚ :=
  match ca, mg with
  | some a, some m => round2 (a * CA_FACTOR + m * MG_FACTOR)
  | _, _ => 0

/-- Wall-clock timestamp at second precision, as produced by datetime.now()
and formatted with strftime in ingest_data (app.py lines 257-260). -/
structure DateTime where
  year : Nat
  month : Nat
  day : Nat
  hour : Nat
  minute : Nat
  second : Nat
  deriving DecidableEq

/-- Component bounds of any timestamp produced by datetime.now; the year range
covers every date the running system can ever stamp (datetime years are four
digits, and year 8999 is the largest for which the reversed key keeps 14
digits, see storage_key). -/
def DateTime.Valid (t : DateTime) : Prop :=
  1000 ≤ t.year ∧ t.year ≤ 8999 ∧ 1 ≤ t.month ∧ t.month ≤ 12 ∧
  1 ≤ t.day ∧ t.day ≤ 31 ∧ t.hour ≤ 23 ∧ t.minute ≤ 59 ∧ t.second ≤ 59

instance (t : DateTime) : Decidable t.Valid := by
  unfold DateTime.Valid
  infer_instance

/-- Numeric value of the 14-digit string strftime("%Y%m%d%H%M%S") of a
timestamp, the int(timestamp_key) of app.py line 265. -/
def DateTime.numeric (t : DateTime) : Nat :=
  ((((t.year * 100 + t.month) * 100 + t.day) * 100 + t.hour) * 100 + t.minute) * 100
    + t.second

/-- Strict chronological order on second-precision timestamps: lexicographic
on the components. -/
def DateTime.chronoLT (a b : DateTime) : Prop :=
  a.year < b.year ∨ (a.year = b.year ∧ (a.month < b.month ∨ (a.month = b.month ∧
    (a.day < b.day ∨ (a.day = b.day ∧ (a.hour < b.hour ∨ (a.hour = b.hour ∧
      (a.minute < b.minute ∨ (a.minute = b.minute ∧ a.second < b.second)))))))))

instance (a b : DateTime) : Decidable (a.chronoLT b) := by
  unfold DateTime.chronoLT
  infer_instance

/-- The constant 99999999999999 of app.py line 265. -/
def LARGE_CONSTANT : Nat := 99999999999999

/-- Fixed-width decimal rendering of a natural number, most significant digit
first, digit d rendered as the character of code 48 + d. -/
def natDigits : Nat → Nat → List Char
  | 0, _ => []
  | w + 1, n => Char.ofNat (48 + n / 10 ^ w) :: natDigits w (n % 10 ^ w)

/-- The reversed storage key of ingest_data (app.py line 265):
str(99999999999999 - int(timestamp_key)).  For every Valid timestamp the
difference lies in [10 ^ 13, 10 ^ 14), so the Python decimal rendering has
exactly 14 digits and coincides with this fixed-width rendering. -/
def storage_key (t : DateTime) : String :=
  ⟨natDigits 14 (LARGE_CONSTANT - t.numeric)⟩

/-- Result dictionary of classify_water_quality in app.py. -/
structure Classification where
  hardness_class : String
  tds_status : String
  is_safe_for_drinking : Bool
  deriving Repr, DecidableEq

/-- classify_water_quality from app.py (lines 52-74). -/
def classify_water_quality (tds total_hardness : ℚ) : Classification :=
  { hardness_class :=
      if total_hardness < 60 then "Soft"
      else if total_hardness < 120 then "Moderately Hard"
      else if total_hardness < 180 then "Hard"
      else "Very Hard"
    tds_status := if tds ≤ 500 then "Safe" else "Above Recommended Limit"
    is_safe_for_drinking := decide (tds ≤ 500) && decide (total_hardness ≤ 200) }

/-- Stored reading as written by ingest_data and read back by get_latest and
get_history.  The timestamp string "%Y-%m-%d %H:%M:%S" is modelled by its
numeric value (string comparison on that format agrees with numeric
comparison); Ca and Mg are read with dict.get and may be absent. -/
structure Record where
  timestamp : Nat
  TDS : ℚ
  Ca : Option ℚ
  Mg : Option ℚ
  deriving DecidableEq

/-- Reading after the read-time enrichment of get_latest / get_history. -/
structure EnrichedRecord where
  base : Record
  total_hardness : ℚ
  classification : Classification
  deriving DecidableEq

/-- Shared read-time enrichment: the hardness and classification assignments
of get_latest (app.py lines 174-181) and get_history (lines 217-221). -/
def enrich (r : Record) : EnrichedRecord :=
  let h := calculate_total_hardness r.Ca r.Mg
  ⟨r, h, classify_water_quality r.TDS h⟩

/-- Display form of an area key: key.replace("_", " "). -/
def displayName (k : String) : String := k.replace "_" " "

/-- Stable insertion by ascending timestamp, the comparison used by
history.sort(key=lambda x: x[timestamp]) in get_history. -/
def insertByTimestamp (r : Record) : List Record → List Record
  | [] => [r]
  | s :: ss =>
    if s.timestamp ≤ r.timestamp then s :: insertByTimestamp r ss
    else r :: s :: ss

/-- Ascending stable sort by timestamp (app.py line 213). -/
def sortByTimestamp : List Record → List Record
  | [] => []
  | r :: rs => insertByTimestamp r (sortByTimestamp rs)

/-- Responses of the get_history endpoint (app.py lines 189-229); badRequest
is the 400 for a missing area parameter, notFound the 404 for an area with no
data, ok the 200 payload with area, record_count and data. -/
inductive HistoryResponse where
  | badRequest
  | notFound (area : String)
  | ok (area : String) (record_count : Nat) (data : List EnrichedRecord)
  deriving DecidableEq

/-- get_history from app.py (lines 189-229).  The store is modelled as the
per-area-key list of records in ascending storage-key order; the Firebase
query order_by_key().limit_to_first(100) is its 100-element prefix. -/
def get_history (store : String → List Record) (area : Option String) :
    HistoryResponse :=
  match area with
  | none => .badRequest
  | some a =>
    let area_key := a.replace " " "_"
    let data := (store area_key).take 100
    if data.isEmpty then .notFound a
    else
      let processed := (sortByTimestamp data).map enrich
      .ok a processed.length processed

/-- Responses of the get_latest endpoint (app.py lines 148-187): noData is
the 200 "No data available" message, error the 500 handler of line 187. -/
inductive GetLatestResponse where
  | ok (entries : List (String × EnrichedRecord))
  | noData
  | error (msg : String)
  deriving DecidableEq

/-- Loop body of get_latest (app.py lines 164-183).  fetch models the
Firebase query order_by_key().limit_to_first(1).get() for one area key:
an exception (error), no record (none), or the newest record.  The whole
loop runs inside a single try block, so an exception anywhere aborts every
area. -/
def get_latest_loop (fetch : String → Except String (Option Record)) :
    List String → Except String (List (String × EnrichedRecord))
  | [] => .ok []
  | k :: ks =>
    match fetch k with
    | .error e => .error e
    | .ok none => get_latest_loop fetch ks
    | .ok (some r) =>
      match get_latest_loop fetch ks with
      | .error e => .error e
      | .ok rest => .ok ((displayName k, enrich r) :: rest)

/-- get_latest from app.py (lines 148-187). -/
def get_latest (areaKeys : List String)
    (fetch : String → Except String (Option Record)) : GetLatestResponse :=
  if areaKeys.isEmpty then .noData
  else
    match get_latest_loop fetch areaKeys with
    | .error e => .error ("Failed to fetch latest data: " ++ e)
    | .ok entries => .ok entries

/-- Presence flags of the request body checked by ingest_data (app.py line
250-252); the area string is the only field value the write path inspects. -/
structure IngestPayload where
  hasArea : Bool
  hasTDS : Bool
  hasCa : Bool
  hasMg : Bool
  hasPH : Bool
  hasTurbidity : Bool
  hasChlorine : Bool
  area : String
  deriving DecidableEq

/-- all(field in data for field in required_fields) of app.py line 252. -/
def IngestPayload.complete (p : IngestPayload) : Bool :=
  p.hasArea && p.hasTDS && p.hasCa && p.hasMg && p.hasPH && p.hasTurbidity
    && p.hasChlorine

/-- Responses of the ingest endpoint: 401, 500, 400, 201. -/
inductive IngestResponse where
  | authError
  | dbError
  | badRequest
  | created (timestamp : Nat)
  deriving DecidableEq

/-- One write performed against the reading store:
DB_REF.child(area_key).child(reversed_key).set(data). -/
structure StoreWrite where
  area_key : String
  reversed_key : String
  deriving DecidableEq

/-- ingest_data from app.py (lines 234-272), returning the response together
with the list of store writes performed.  The Authorization header is read
with a default of the empty string (line 238); the expected token is
"Bearer " followed by the pre-shared secret (line 239); the auth comparison
is the first check. -/
def ingest_data (auth_header : Option String) (secret : String)
    (dbAvailable : Bool) (payload : Option IngestPayload) (now : DateTime) :
    IngestResponse × List StoreWrite :=
  if auth_header.getD "" ≠ "Bearer " ++ secret then (.authError, [])
  else if !dbAvailable then (.dbError, [])
  else
    match payload with
    | none => (.badRequest, [])
    | some p =>
      if !p.complete then (.badRequest, [])
      else
        (.created now.numeric, [⟨p.area.replace " " "_", storage_key now⟩])

end App

namespace Modeler

/-- CA_FACTOR from water_modeler.py line 32. -/
def CA_FACTOR : ℚ := 2.497

/-- MG_FACTOR from water_modeler.py line 34. -/
def MG_FACTOR : ℚ := 4.118

/-- calculate_total_hardness from water_modeler.py (lines 83-87); note the
source performs no rounding here. -/
def calculate_total_hardness (ca_mg_l mg_mg_l : ℚ) : ℚ :=
  ca_mg_l * CA_FACTOR + mg_mg_l * MG_FACTOR

/-- classify_hardness from water_modeler.py (lines 91-109), with the
HARDNESS_STANDARDS thresholds 75 / 150 / 300 of lines 36-44. -/
def classify_hardness (hardness : ℚ) : String :=
  if hardness < 75 then "Soft"
  else if hardness < 150 then "Moderately Hard"
  else if hardness < 300 then "Hard"
  else "Very Hard"

/-- One row of the history DataFrame used by predict_area_trend: the
timestamp measured in days (the unit in which pandas day differences are
taken) and the TDS value. -/
structure Sample where
  ts : ℚ
  TDS : ℚ
  deriving DecidableEq

/-- Result dictionary of predict_area_trend (water_modeler.py lines 639-645);
predictions holds (date, predicted_tds) pairs with the date in days. -/
structure PredictResult where
  area : String
  predictions : List (ℚ × ℚ)
  model_used : String
  trend_message : String
  source : String
  deriving DecidableEq

/-- Stable insertion by ascending timestamp, for sort_values by timestamp. -/
def insertSample (s : Sample) : List Sample → List Sample
  | [] => [s]
  | u :: us =>
    if u.ts ≤ s.ts then u :: insertSample s us
    else s :: u :: us

/-- df_history.sort_values(by=timestamp) of water_modeler.py line 537. -/
def sortSamples : List Sample → List Sample
  | [] => []
  | s :: ss => insertSample s (sortSamples ss)

/-- df_history[timestamp].min() (0 on an empty frame, a case the caller
never reaches). -/
def minTsD : List Sample → ℚ
  | [] => 0
  | s :: t => t.foldl (fun m u => min m u.ts) s.ts

/-- df_history[timestamp].max(). -/
def maxTsD : List Sample → ℚ
  | [] => 0
  | s :: t => t.foldl (fun m u => max m u.ts) s.ts

/-- Maximum of a list of rationals with default 0, for
df_history[time_index].max(). -/
def maxD : List ℚ → ℚ
  | [] => 0
  | x :: xr => xr.foldl max x

/-- Last element with a default, for the Python index [-1]. -/
def lastD (l : List ℚ) (d : ℚ) : ℚ := l.getLastD d

/-- Ordinary least squares fit of sklearn LinearRegression (fit_intercept
true): slope and intercept of the line through (xs, ys).  sklearn solves the
least-squares problem on centered data via a minimum-norm solver, so when
every x is identical (centered X is the zero matrix) the returned coefficient
is 0 and the intercept is the mean of ys; no exception is raised. -/
def olsFit (xs ys : List ℚ) : ℚ × ℚ :=
  let n : ℚ := (xs.length : ℚ)
  let xbar := xs.sum / n
  let ybar := ys.sum / n
  let sxx := ((xs.map (fun x => (x - xbar) ^ 2)).sum)
  let sxy := ((List.zipWith (fun x y => (x - xbar) * (y - ybar)) xs ys).sum)
  let slope := if sxx = 0 then 0 else sxy / sxx
  (slope, ybar - slope * xbar)

/-- The trend_message of water_modeler.py line 527. -/
def insufficient_message : String :=
  "Insufficient historical data to generate a reliable forecast."

/-- Trend message of water_modeler.py lines 623-633; the numeric
interpolation of the Python f-strings is elided, no claim inspects it. -/
def trend_message (change : ℚ) : String :=
  if |change| < 5 then
    "TDS levels are predicted to remain **stable** over the next 7 days."
  else if 0 < change then
    "TDS levels show a slight **increasing trend**. Monitor closely."
  else
    "TDS levels show a slight **decreasing trend**. Overall quality is improving."

/-- Core of predict_area_trend (water_modeler.py lines 501-645) after the
history frame has been obtained: the insufficient-data early return for an
empty frame (line 522; a frame lacking the TDS column is the other way to
reach it), the day-offset time index, the regression fit, the future_steps
projected points, and the trend message.  The IndexError of
predicted_tds[-1] on an empty prediction array (future_steps = 0) is the
error case; the except ValueError branch of the fit is unreachable for a
well-formed numeric history. -/
def predict_area_trend_core (area : String) (hist : List Sample)
    (source : String) (future_steps : Nat) : Except String PredictResult :=
  if hist.isEmpty then
    .ok ⟨area, [], "None", insufficient_message, source⟩
  else
    let sorted := sortSamples hist
    let t0 := minTsD hist
    let xs : List ℚ := sorted.map (fun s => ((⌊s.ts - t0⌋ : ℤ) : ℚ))
    let ys : List ℚ := sorted.map (fun s => s.TDS)
    let fit := olsFit xs ys
    let lastIndex := maxD xs
    let maxTs := maxTsD hist
    let predictions : List (ℚ × ℚ) :=
      (List.range future_steps).map (fun (i : Nat) =>
        (maxTs + ((i : ℚ) + 1), fit.1 * (lastIndex + 1 + (i : ℚ)) + fit.2))
    if future_steps = 0 then .error "IndexError"
    else
      let current := lastD ys 0
      let finalPred := lastD (predictions.map Prod.snd) 0
      .ok ⟨area, predictions, "LinearRegression",
        trend_message (finalPred - current), source⟩

/-- Position of a string in a list, the Python list.index lookup
self.areas.index(area) of water_modeler.py line 487. -/
def listIndex (a : String) : List String → Option Nat
  | [] => none
  | b :: bs => if b = a then some 0 else (listIndex a bs).map (· + 1)

/-- Mock-history generation of _get_history_df (water_modeler.py lines
484-497), reached after all three fetch attempts fail or return zero
records.  jitter i models random.uniform(-10, 10) for point i; now is the
current time in days; list.index raises ValueError for an area missing from
self.areas.  Timestamps run one day apart ending now; the TDS of point i is
round(base_tds + jitter + (i / 10) * 5, 2). -/
def mock_history (areas : List String) (area : String) (limit : Nat)
    (jitter : Nat → ℚ) (now : ℚ) : Except String (List Sample × String) :=
  match listIndex area areas with
  | none => .error "ValueError"
  | some idx =>
    .ok ((List.range limit).map (fun (i : Nat) =>
      { ts := now - ((limit : ℚ) - 1 - (i : ℚ))
        TDS := round2 ((350 : ℚ) + (((idx * 50) % 200 : Nat) : ℚ) + jitter i
          + (i : ℚ) / 10 * 5) }), "mock")

/-- predict_area_trend in the situation of claim C5: every one of the three
history-fetch attempts has failed or returned zero records, so
_get_history_df (called with limit 30, line 512) falls back to mock data
and the core prediction runs on it. -/
def predict_area_trend_fallback (areas : List String) (area : String)
    (future_steps : Nat) (jitter : Nat → ℚ) (now : ℚ) :
    Except String PredictResult :=
  match mock_history areas area 30 jitter now with
  | .error e => .error e
  | .ok (hist, src) => predict_area_trend_core area hist src future_steps

/-- Source field of a prediction outcome, when it succeeded. -/
def resSource : Except String PredictResult → Option String
  | .ok r => some r.source
  | .error _ => none

/-- Model field of a prediction outcome, when it succeeded. -/
def resModel : Except String PredictResult → Option String
  | .ok r => some r.model_used
  | .error _ => none

/-- Number of predictions of a prediction outcome, when it succeeded. -/
def resPredCount : Except String PredictResult → Option Nat
  | .ok r => some r.predictions.length
  | .error _ => none

end Modeler

namespace MLApi

/-- Job status values of the in-memory job store of ml_api.py. -/
inductive JobStatus where
  | queued
  | running
  | completed
  | failed
  deriving DecidableEq

/-- Snapshot of one JOBS entry: the fields the worker mutates. -/
structure JobState where
  status : JobStatus
  progress : Nat
  error : Option String
  result : Option ℚ
  deriving DecidableEq

/-- Job entry as registered by start_treatment (ml_api.py lines 515-525)
before the worker thread runs. -/
def initialJob : JobState := ⟨.queued, 0, none, none⟩

/-- Final hardness stored in the completed result (ml_api.py lines 472-478):
round(max(0.0, (1 - removal_efficiency) * current_hardness), 2), or None
when the current hardness is unknown. -/
def finalHardness (removal_efficiency : ℚ) (current_hardness : Option ℚ) :
    Option ℚ :=
  current_hardness.map (fun ch => round2 (max 0 ((1 - removal_efficiency) * ch)))

/-- The ten in-loop progress snapshots of _run_treatment_job (ml_api.py
lines 466-469): after step i the progress is int(((i + 1) / 10) * 100)
= (i + 1) * 10. -/
def runningStates : List JobState :=
  [⟨.running, 10, none, none⟩, ⟨.running, 20, none, none⟩,
   ⟨.running, 30, none, none⟩, ⟨.running, 40, none, none⟩,
   ⟨.running, 50, none, none⟩, ⟨.running, 60, none, none⟩,
   ⟨.running, 70, none, none⟩, ⟨.running, 80, none, none⟩,
   ⟨.running, 90, none, none⟩, ⟨.running, 100, none, none⟩]

/-- Snapshots written by _run_treatment_job when no exception occurs: the
queued-to-running transition with progress reset (lines 454-456), the ten
loop updates, then the completed state with progress 100 and the result
(lines 474-482). -/
def normalStates (eff : ℚ) (ch : Option ℚ) : List JobState :=
  ⟨.running, 0, none, none⟩ :: runningStates
    ++ [⟨.completed, 100, none, finalHardness eff ch⟩]

/-- Job state after the except handler (ml_api.py lines 483-486): status
failed and the error captured, progress and result untouched. -/
def failJobState (s : JobState) (msg : String) : JobState :=
  { s with status := .failed, error := some msg }

/-- Trace of snapshots of one job over one worker execution, starting from
the queued state registered by start_treatment.  failAt = some (k, msg)
models an exception raised after the first k updates, which the except
handler turns into the failed state; the first statement of the try block
is the running transition and nothing follows the completed transition, so
1 ≤ k ≤ 11 covers every failure point. -/
def workerTrace (eff : ℚ) (ch : Option ℚ)
    (failAt : Option (Nat × String)) : List JobState :=
  match failAt with
  | none => initialJob :: normalStates eff ch
  | some (k, msg) =>
    let done := initialJob :: (normalStates eff ch).take k
    done ++ [failJobState (done.getLastD initialJob) msg]

/-- Admissible single transition of a job status: unchanged, queued to
running, or running to a terminal state. -/
def statusStep (s t : JobStatus) : Prop :=
  s = t ∨ (s = .queued ∧ t = .running)
    ∨ (s = .running ∧ (t = .completed ∨ t = .failed))

/-- Admissible step between consecutive snapshots: admissible status
transition and non-decreasing progress. -/
def stepOk (a b : JobState) : Prop :=
  statusStep a.status b.status ∧ a.progress ≤ b.progress

end MLApi

/-- Concrete fetch oracle for the get_latest counterexample: the range call
for Area_A succeeds with one record, the one for Area_B raises. -/
def App.cexFetch : String → Except String (Option App.Record)
  | "Area_A" => .ok (some ⟨20240101000000, 400, some 80, some 20⟩)
  | "Area_B" => .error "connection reset"
  | _ => .ok none

/-! ## Helper lemmas -/

theorem App.insertByTimestamp_length (r : App.Record) (l : List App.Record) :
    (App.insertByTimestamp r l).length = l.length + 1 := by
  induction l with
  | nil => rfl
  | cons s ss ih =>
    unfold App.insertByTimestamp
    by_cases h : s.timestamp ≤ r.timestamp
    · simp [h, ih]
    · simp [h]

theorem App.sortByTimestamp_length (l : List App.Record) :
    (App.sortByTimestamp l).length = l.length := by
  induction l with
  | nil => rfl
  | cons r rs ih =>
    unfold App.sortByTimestamp
    rw [App.insertByTimestamp_length, ih, List.length_cons]

/-! ## Claim theorems -/

/-- C2 counterexample: the claim asks that the derived-hardness computation
return round(Ca * 2.497 + Mg * 4.118, 2) in every place the derivation is
performed, but the computation of WaterQualityModeler.calculate_total_hardness
does not round: at Ca = 1, Mg = 0 it returns 2.497 while the rounded value is
2.5. -/
theorem C2_cex :
    Modeler.calculate_total_hardness 1 0
      ≠ round2 (1 * Modeler.CA_FACTOR + 0 * Modeler.MG_FACTOR) := by
  unfold Modeler.calculate_total_hardness round2 roundHalfEven
    Modeler.CA_FACTOR Modeler.MG_FACTOR
  norm_num

/-- C2 (amended): for non-negative Ca and Mg, the app-layer derivation
calculate_total_hardness returns exactly round(Ca * 2.497 + Mg * 4.118, 2)
and is deterministic (computing it twice on identical inputs yields identical
output); the modeler-layer derivation is deterministic as well but returns
the unrounded sum Ca * 2.497 + Mg * 4.118. -/
theorem C2_hardness_derivation (ca mg : ℚ) (_hca : 0 ≤ ca) (_hmg : 0 ≤ mg) :
    App.calculate_total_hardness (some ca) (some mg)
        = round2 (ca * App.CA_FACTOR + mg * App.MG_FACTOR)
    ∧ App.calculate_total_hardness (some ca) (some mg)
        = App.calculate_total_hardness (some ca) (some mg)
    ∧ Modeler.calculate_total_hardness ca mg
        = ca * Modeler.CA_FACTOR + mg * Modeler.MG_FACTOR := by
  exact ⟨rfl, rfl, rfl⟩

/-- C2 witness: the amended theorem applied at Ca = 80, Mg = 20, the sample
reading of the spec. -/
theorem C2_witness :
    (0 : ℚ) ≤ 80 ∧ (0 : ℚ) ≤ 20
    ∧ (App.calculate_total_hardness (some 80) (some 20)
        = round2 (80 * App.CA_FACTOR + 20 * App.MG_FACTOR)
      ∧ App.calculate_total_hardness (some 80) (some 20)
        = App.calculate_total_hardness (some 80) (some 20)
      ∧ Modeler.calculate_total_hardness 80 20
        = 80 * Modeler.CA_FACTOR + 20 * Modeler.MG_FACTOR) :=
  ⟨by norm_num, by norm_num,
   C2_hardness_derivation 80 20 (by norm_num) (by norm_num)⟩

/-- C3 counterexample: the claim asserts that a hardness of exactly 60
classifies as "Moderately Hard" wherever classification is performed, but
WaterQualityModeler.classify_hardness uses the thresholds 75 / 150 / 300 and
classifies 60 as "Soft". -/
theorem C3_cex :
    Modeler.classify_hardness 60 = "Soft"
    ∧ ("Soft" : String) ≠ "Moderately Hard" := by
  constructor
  · unfold Modeler.classify_hardness
    rw [if_pos (by norm_num : (60 : ℚ) < 75)]
  · decide

/-- C3 (amended): the app-layer classification is closed-open at 60 / 120 /
180 exactly as the claim states (60 classifies as "Moderately Hard", 120 as
"Hard", 180 as "Very Hard"); the modeler-layer classify_hardness is
closed-open at the thresholds 75 / 150 / 300 instead. -/
theorem C3_classification_boundaries (tds h : ℚ) :
    (h < 60 → (App.classify_water_quality tds h).hardness_class = "Soft")
    ∧ (60 ≤ h → h < 120 →
        (App.classify_water_quality tds h).hardness_class = "Moderately Hard")
    ∧ (120 ≤ h → h < 180 →
        (App.classify_water_quality tds h).hardness_class = "Hard")
    ∧ (180 ≤ h → (App.classify_water_quality tds h).hardness_class = "Very Hard")
    ∧ (h < 75 → Modeler.classify_hardness h = "Soft")
    ∧ (75 ≤ h → h < 150 → Modeler.classify_hardness h = "Moderately Hard")
    ∧ (150 ≤ h → h < 300 → Modeler.classify_hardness h = "Hard")
    ∧ (300 ≤ h → Modeler.classify_hardness h = "Very Hard") := by
  refine ⟨?_, ?_, ?_, ?_, ?_, ?_, ?_, ?_⟩ <;> intros <;>
    simp only [App.classify_water_quality, Modeler.classify_hardness] <;>
    split_ifs <;> first | rfl | linarith

/-- C3 witness: the amended theorem applied at the boundary value 60. -/
theorem C3_witness :
    (App.classify_water_quality 400 60).hardness_class = "Moderately Hard"
    ∧ Modeler.classify_hardness 60 = "Soft" :=
  ⟨(C3_classification_boundaries 400 60).2.1 (by norm_num) (by norm_num),
   (C3_classification_boundaries 400 60).2.2.2.2.1 (by norm_num)⟩

/-- C7: an ingest request whose bearer token does not exactly match the
pre-shared secret (a missing Authorization header reads as the empty string
and never matches) fails with the authentication error before any other
processing: whatever the store availability and the payload, the response is
the 401 and no store write is performed. -/
theorem C7_auth_check_first (auth_header : Option String) (secret : String)
    (dbAvailable : Bool) (payload : Option App.IngestPayload)
    (now : App.DateTime) (h : auth_header.getD "" ≠ "Bearer " ++ secret) :
    App.ingest_data auth_header secret dbAvailable payload now
      = (.authError, []) := by
  unfold App.ingest_data
  rw [if_pos h]

/-- C7 witness: a request with a wrong bearer token, a complete valid
payload and an available store is rejected with the authentication error. -/
theorem C7_witness :
    (some "Bearer wrong").getD "" ≠ "Bearer " ++ "s3cret"
    ∧ App.ingest_data (some "Bearer wrong") "s3cret" true
        (some ⟨true, true, true, true, true, true, true, "Test"⟩)
        ⟨2024, 1, 1, 0, 0, 0⟩ = (.authError, []) :=
  ⟨by decide,
   C7_auth_check_first (some "Bearer wrong") "s3cret" true
     (some ⟨true, true, true, true, true, true, true, "Test"⟩)
     ⟨2024, 1, 1, 0, 0, 0⟩ (by decide)⟩

/-- C8: get_history for an area whose store partition holds zero records
returns the 404 not-found response, and a successful get_history response
never carries an empty record list. -/
theorem C8_empty_history_not_found (store : String → List App.Record)
    (a : String) (h : store (a.replace " " "_") = []) :
    App.get_history store (some a) = .notFound a
    ∧ ∀ store2 : String → List App.Record, ∀ a2 ar : String,
        ∀ c : Nat, ∀ l : List App.EnrichedRecord,
        App.get_history store2 (some a2) = .ok ar c l → l ≠ [] := by
  constructor
  · unfold App.get_history
    simp [h]
  · intro store2 a2 ar c l hok hnil
    unfold App.get_history at hok
    simp only [] at hok
    by_cases he : ((store2 (a2.replace " " "_")).take 100).isEmpty
    · rw [if_pos he] at hok
      exact App.HistoryResponse.noConfusion hok
    · rw [if_neg he] at hok
      have hlen := App.HistoryResponse.ok.inj hok
      have hl : l = (App.sortByTimestamp
          ((store2 (a2.replace " " "_")).take 100)).map App.enrich :=
        hlen.2.2.symm
      rw [hnil] at hl
      have hsort : App.sortByTimestamp
          ((store2 (a2.replace " " "_")).take 100) = [] :=
        List.map_eq_nil_iff.1 hl.symm
      have hlen0 : ((store2 (a2.replace " " "_")).take 100).length = 0 := by
        have := congrArg List.length hsort
        simpa [App.sortByTimestamp_length] using this
      exact he (List.isEmpty_iff_length_eq_zero.2 hlen0)

/-- C8 witness: the theorem applied to the empty store and the area
"Test". -/
theorem C8_witness :
    App.get_history (fun _ => []) (some "Test") = .notFound "Test"
    ∧ ∀ store2 : String → List App.Record, ∀ a2 ar : String,
        ∀ c : Nat, ∀ l : List App.EnrichedRecord,
        App.get_history store2 (some a2) = .ok ar c l → l ≠ [] :=
  C8_empty_history_not_found (fun _ => []) "Test" rfl

/-- C10: a stored record in which Ca or Mg is absent is still enriched: the
shared read-time derivation used by get_latest and get_history yields total
hardness 0 (instead of raising), and the record classifies as "Soft". -/
theorem C10_missing_ca_mg_enrichment (r : App.Record)
    (h : r.Ca = none ∨ r.Mg = none) :
    (App.enrich r).total_hardness = 0
    ∧ (App.enrich r).classification.hardness_class = "Soft" := by
  have h0 : App.calculate_total_hardness r.Ca r.Mg = 0 := by
    rcases h with h | h
    · rw [h]; cases r.Mg <;> rfl
    · rw [h]; cases r.Ca <;> rfl
  constructor
  · simpa [App.enrich] using h0
  · simp only [App.enrich, h0, App.classify_water_quality]
    rw [if_pos (by norm_num : (0 : ℚ) < 60)]

/-- C10 witness: the theorem applied to a record with both Ca and Mg
absent. -/
theorem C10_witness :
    (App.enrich ⟨20240101000000, 400, none, none⟩).total_hardness = 0
    ∧ (App.enrich
        ⟨20240101000000, 400, none, none⟩).classification.hardness_class
      = "Soft" :=
  C10_missing_ca_mg_enrichment ⟨20240101000000, 400, none, none⟩ (Or.inl rfl)

theorem App.digitChar_lt {d e : Nat} (hd : d < 10) (he : e < 10) (h : d < e) :
    Char.ofNat (48 + d) < Char.ofNat (48 + e) := by
  have H : ∀ d, d < 10 → ∀ e, e < 10 → d < e →
      Char.ofNat (48 + d) < Char.ofNat (48 + e) := by decide
  exact H d hd e he h

theorem App.natDigits_lt : ∀ (w : Nat) {a b : Nat}, a < b → b < 10 ^ w →
    App.natDigits w a < App.natDigits w b := by
  intro w
  induction w with
  | zero =>
    intro a b hab hb
    simp only [pow_zero] at hb
    exact absurd hab (by omega)
  | succ w ih =>
    intro a b hab hb
    have hq : 0 < 10 ^ w := Nat.pos_pow_of_pos w (by norm_num)
    have hbq : b < 10 ^ w * 10 := by
      rw [pow_succ] at hb
      exact hb
    have hda : a / 10 ^ w < 10 := Nat.div_lt_of_lt_mul (lt_trans hab hbq)
    have hdb : b / 10 ^ w < 10 := Nat.div_lt_of_lt_mul hbq
    have hma := Nat.div_add_mod a (10 ^ w)
    have hmb := Nat.div_add_mod b (10 ^ w)
    have hra : a % 10 ^ w < 10 ^ w := Nat.mod_lt _ hq
    have hrb : b % 10 ^ w < 10 ^ w := Nat.mod_lt _ hq
    simp only [App.natDigits]
    rcases Nat.lt_trichotomy (a / 10 ^ w) (b / 10 ^ w) with hlt | heq | hgt
    · exact List.Lex.rel (App.digitChar_lt hda hdb hlt)
    · rw [← heq] at hmb
      have hmod : a % 10 ^ w < b % 10 ^ w := by omega
      rw [show Char.ofNat (48 + a / 10 ^ w) = Char.ofNat (48 + b / 10 ^ w) by
        rw [heq]]
      exact List.Lex.cons (ih hmod hrb)
    · have hstep : b / 10 ^ w + 1 ≤ a / 10 ^ w := hgt
      have hmul := Nat.mul_le_mul_left (10 ^ w) hstep
      rw [Nat.mul_add, Nat.mul_one] at hmul
      exact absurd hab (by omega)

theorem App.numeric_bounds (t : App.DateTime) (h : t.Valid) :
    10000000000000 ≤ t.numeric ∧ t.numeric ≤ 89999999999999 := by
  obtain ⟨h1, h2, h3, h4, h5, h6, h7, h8, h9⟩ := h
  unfold App.DateTime.numeric
  omega

theorem App.numeric_lt_of_chronoLT {t1 t2 : App.DateTime}
    (h1 : t1.Valid) (h2 : t2.Valid) (h : t1.chronoLT t2) :
    t1.numeric < t2.numeric := by
  obtain ⟨a1, a2, a3, a4, a5, a6, a7, a8, a9⟩ := h1
  obtain ⟨b1, b2, b3, b4, b5, b6, b7, b8, b9⟩ := h2
  unfold App.DateTime.chronoLT at h
  unfold App.DateTime.numeric
  rcases h with h | ⟨e1, h | ⟨e2, h | ⟨e3, h | ⟨e4, h | ⟨e5, h6⟩⟩⟩⟩⟩ <;> omega

/-- C1: for two valid second-precision timestamps t1 chronologically before
t2, the derived storage keys (the decimal string of 99999999999999 minus the
14-digit numeric form of the timestamp, fixed-width) satisfy
key(t1) > key(t2) in lexicographic string order, so ascending key order is
descending chronological order. -/
theorem C1_storage_key_descending (t1 t2 : App.DateTime)
    (h1 : t1.Valid) (h2 : t2.Valid) (hlt : t1.chronoLT t2) :
    App.storage_key t2 < App.storage_key t1 := by
  have hn := App.numeric_lt_of_chronoLT h1 h2 hlt
  have hb1 := App.numeric_bounds t1 h1
  have hb2 := App.numeric_bounds t2 h2
  unfold App.storage_key
  rw [String.lt_iff_toList_lt]
  have h14 : (10 : Nat) ^ 14 = 100000000000000 := by norm_num
  exact App.natDigits_lt 14
    (by unfold App.LARGE_CONSTANT; omega)
    (by unfold App.LARGE_CONSTANT; omega)

/-- C1 witness: two timestamps one second apart on 2024-05-01. -/
theorem C1_witness :
    (App.DateTime.mk 2024 5 1 12 0 0).Valid
    ∧ (App.DateTime.mk 2024 5 1 12 0 1).Valid
    ∧ (App.DateTime.mk 2024 5 1 12 0 0).chronoLT (App.DateTime.mk 2024 5 1 12 0 1)
    ∧ App.storage_key (App.DateTime.mk 2024 5 1 12 0 1)
        < App.storage_key (App.DateTime.mk 2024 5 1 12 0 0) :=
  ⟨by decide, by decide, by decide,
   C1_storage_key_descending (App.DateTime.mk 2024 5 1 12 0 0)
     (App.DateTime.mk 2024 5 1 12 0 1) (by decide) (by decide) (by decide)⟩

theorem App.get_latest_loop_error (fetch : String → Except String (Option App.Record))
    (ks : List String) (k : String) (e : String) (hk : k ∈ ks)
    (he : fetch k = .error e) :
    ∃ msg, App.get_latest_loop fetch ks = .error msg := by
  induction ks with
  | nil => cases hk
  | cons a as ih =>
    unfold App.get_latest_loop
    rcases List.mem_cons.1 hk with rfl | hmem
    · exact ⟨e, by simp [he]⟩
    · cases hfa : fetch a with
      | error e2 => exact ⟨e2, by simp [hfa]⟩
      | ok o =>
        obtain ⟨msg, hmsg⟩ := ih hmem
        cases o with
        | none => exact ⟨msg, by simp [hfa, hmsg]⟩
        | some r => exact ⟨msg, by simp [hfa, hmsg]⟩

/-- C6 counterexample: with two known areas where the range fetch for
Area_A succeeds and the one for Area_B raises, get_latest returns the
overall 500 error instead of skipping Area_B and returning the enriched
record of Area_A: a single failing area fails the whole response. -/
theorem C6_cex :
    App.get_latest ["Area_A", "Area_B"] App.cexFetch
      = .error "Failed to fetch latest data: connection reset" := by
  rfl

/-- C6 (amended): the loop of get_latest runs inside one try block, so an
error on any single area's range fetch makes the whole get_latest response
the 500 error — the successful areas' enriched records are not returned.
Only areas whose fetch succeeds with an empty result are skipped. -/
theorem C6_get_latest_error_propagates (areaKeys : List String)
    (fetch : String → Except String (Option App.Record)) (k e : String)
    (hk : k ∈ areaKeys) (he : fetch k = .error e) :
    ∃ msg, App.get_latest areaKeys fetch = .error msg := by
  obtain ⟨msg, hmsg⟩ := App.get_latest_loop_error fetch areaKeys k e hk he
  have hne : areaKeys.isEmpty = false := by
    cases areaKeys with
    | nil => cases hk
    | cons a as => rfl
  refine ⟨"Failed to fetch latest data: " ++ msg, ?_⟩
  unfold App.get_latest
  rw [hne]
  simp [hmsg]

/-- C6 witness: the amended theorem applied to the concrete two-area store
of the counterexample. -/
theorem C6_witness :
    "Area_B" ∈ ["Area_A", "Area_B"]
    ∧ App.cexFetch "Area_B" = .error "connection reset"
    ∧ ∃ msg, App.get_latest ["Area_A", "Area_B"] App.cexFetch = .error msg :=
  ⟨by decide, rfl,
   C6_get_latest_error_propagates ["Area_A", "Area_B"] App.cexFetch
     "Area_B" "connection reset" (by decide) rfl⟩

theorem Modeler.predict_core_ok (area source : String) (fs : Nat)
    (hist : List Modeler.Sample) (hne : hist ≠ []) (hfs : 0 < fs) :
    ∃ r, Modeler.predict_area_trend_core area hist source fs = .ok r
      ∧ r.model_used = "LinearRegression" ∧ r.source = source
      ∧ r.predictions.length = fs := by
  unfold Modeler.predict_area_trend_core
  rw [if_neg (by simp [hne] : ¬(hist.isEmpty = true))]
  rw [if_neg (by omega : ¬(fs = 0))]
  exact ⟨_, rfl, rfl, rfl, by simp⟩

/-- C4 counterexample: a history with a single record — one distinct
day-offset — is not rejected: predict_area_trend fits the regression on the
degenerate input and returns 7 predictions from model LinearRegression
instead of the insufficient-data result with an empty predictions list. -/
theorem C4_cex :
    Modeler.resPredCount (Modeler.predict_area_trend_core "Test"
        [(⟨0, 100⟩ : Modeler.Sample)] "real" 7) = some 7
    ∧ Modeler.resModel (Modeler.predict_area_trend_core "Test"
        [(⟨0, 100⟩ : Modeler.Sample)] "real" 7) = some "LinearRegression"
    ∧ ("LinearRegression" : String) ≠ "None" := by
  refine ⟨rfl, rfl, by decide⟩

/-- C4 (amended): predict_area_trend returns the insufficient-data result
with an empty predictions list exactly for an empty history frame (in the
source, also for a frame lacking the TDS column); a history with at least
one record — even with fewer than 2 distinct day-offsets — is not rejected:
the regression is fit on the degenerate input (sklearn returns the
minimum-norm least-squares solution, no numeric error is propagated) and
the result carries future_steps predictions from model LinearRegression. -/
theorem C4_insufficient_only_for_empty (area source : String) (fs : Nat) :
    Modeler.predict_area_trend_core area [] source fs
      = .ok ⟨area, [], "None", Modeler.insufficient_message, source⟩
    ∧ ∀ hist : List Modeler.Sample, hist ≠ [] → 0 < fs →
        ∃ r, Modeler.predict_area_trend_core area hist source fs = .ok r
          ∧ r.model_used = "LinearRegression"
          ∧ r.predictions.length = fs := by
  constructor
  · rfl
  · intro hist hne hfs
    obtain ⟨r, hr, hmodel, _, hlen⟩ :=
      Modeler.predict_core_ok area source fs hist hne hfs
    exact ⟨r, hr, hmodel, hlen⟩

/-- C4 witness: the amended theorem applied to a one-record history. -/
theorem C4_witness :
    ∃ r, Modeler.predict_area_trend_core "Test"
        [(⟨0, 100⟩ : Modeler.Sample)] "real" 7 = .ok r
      ∧ r.model_used = "LinearRegression"
      ∧ r.predictions.length = 7 :=
  (C4_insufficient_only_for_empty "Test" "real" 7).2
    [(⟨0, 100⟩ : Modeler.Sample)] (by simp) (by decide)

theorem Modeler.listIndex_of_mem {a : String} {l : List String} (h : a ∈ l) :
    ∃ i, Modeler.listIndex a l = some i := by
  induction l with
  | nil => cases h
  | cons b bs ih =>
    unfold Modeler.listIndex
    by_cases hb : b = a
    · exact ⟨0, by simp [hb]⟩
    · rcases List.mem_cons.1 h with rfl | hmem
      · exact absurd rfl hb
      · obtain ⟨i, hi⟩ := ih hmem
        exact ⟨i + 1, by simp [hb, hi]⟩

/-- C5 counterexample: after every fetch attempt has failed, the fallback
result tags its data source with the string "mock" (water_modeler.py line
497), not "synthetic" as the claim states. -/
theorem C5_cex :
    Modeler.resSource (Modeler.predict_area_trend_fallback ["MG Road"]
        "MG Road" 7 (fun _ => 0) 29) = some "mock"
    ∧ ("mock" : String) ≠ "synthetic" := by
  refine ⟨rfl, by decide⟩

/-- C5 (amended): for every area present in the known-areas list and every
positive futureSteps, when all 3 retry attempts to fetch history fail or
return zero records, predict_area_trend still succeeds on the generated
fallback data and returns a result whose source field is "mock" (the tag
the code uses for its synthetic data) and whose predictions list has
exactly futureSteps entries — whatever the random jitter and the current
time.  For an area missing from the known-areas list the fallback raises
ValueError instead, and futureSteps = 0 raises IndexError, so the claim
does not hold for every area and every futureSteps value. -/
theorem C5_synthetic_fallback (areas : List String) (area : String)
    (h : area ∈ areas) (fs : Nat) (hfs : 0 < fs) (jitter : Nat → ℚ)
    (now : ℚ) :
    ∃ r, Modeler.predict_area_trend_fallback areas area fs jitter now = .ok r
      ∧ r.source = "mock" ∧ r.predictions.length = fs := by
  obtain ⟨i, hi⟩ := Modeler.listIndex_of_mem h
  have hmock : ∃ lst, Modeler.mock_history areas area 30 jitter now
      = .ok (lst, "mock") ∧ lst ≠ [] := by
    unfold Modeler.mock_history
    rw [hi]
    exact ⟨_, rfl, by simp⟩
  obtain ⟨lst, hm, hne⟩ := hmock
  unfold Modeler.predict_area_trend_fallback
  rw [hm]
  obtain ⟨r, hr, _, hsource, hlen⟩ :=
    Modeler.predict_core_ok area "mock" fs lst hne hfs
  exact ⟨r, hr, hsource, hlen⟩

/-- C5 witness: the amended theorem at a concrete known area, futureSteps
7, zero jitter. -/
theorem C5_witness :
    "MG Road" ∈ ["MG Road"] ∧ 0 < 7
    ∧ ∃ r, Modeler.predict_area_trend_fallback ["MG Road"] "MG Road" 7
        (fun _ => 0) 29 = .ok r
      ∧ r.source = "mock" ∧ r.predictions.length = 7 :=
  ⟨by decide, by decide,
   C5_synthetic_fallback ["MG Road"] "MG Road" (by decide) 7 (by decide)
     (fun _ => 0) 29⟩

/-- C9 counterexample: in the exception-free worker run the snapshot after
the last loop step (position 11 of the trace) already has progress 100 while
the status is still running — completion only happens at position 12 — so
progress does not reach 100 exactly when the job completes: an observer
polling job_status can see a running job at progress 100. -/
theorem C9_cex :
    (MLApi.workerTrace 1 none none)[11]?
        = some ⟨.running, 100, none, none⟩
    ∧ (MLApi.workerTrace 1 none none)[12]?
        = some ⟨.completed, 100, none, none⟩
    ∧ (MLApi.workerTrace 1 none none).length = 13
    ∧ MLApi.JobStatus.running ≠ MLApi.JobStatus.completed := by
  refine ⟨rfl, rfl, rfl, by decide⟩

/-- C9 (amended): along every execution of the background worker the job
moves queued, then running, then completed or failed, in that order and no
other (every consecutive snapshot pair is an admissible step), the progress
field never decreases, the last snapshot is terminal, a completed job has
progress 100, and a worker exception yields the failed status with the
error captured.  However progress reaches 100 already at the final in-loop
update while the status is still running, so progress 100 does not imply
completion. -/
theorem C9_job_lifecycle (eff : ℚ) (ch : Option ℚ)
    (failAt : Option (Nat × String))
    (hvalid : ∀ k msg, failAt = some (k, msg) → 1 ≤ k ∧ k ≤ 11) :
    List.Chain' MLApi.stepOk (MLApi.workerTrace eff ch failAt)
    ∧ (MLApi.workerTrace eff ch failAt).head? = some MLApi.initialJob
    ∧ (((MLApi.workerTrace eff ch failAt).getLastD MLApi.initialJob).status
          = .completed
        ∨ ((MLApi.workerTrace eff ch failAt).getLastD MLApi.initialJob).status
          = .failed)
    ∧ (((MLApi.workerTrace eff ch failAt).getLastD MLApi.initialJob).status
          = .completed →
        ((MLApi.workerTrace eff ch failAt).getLastD MLApi.initialJob).progress
          = 100)
    ∧ (∀ k msg, failAt = some (k, msg) →
        ((MLApi.workerTrace eff ch failAt).getLastD MLApi.initialJob).status
            = .failed
          ∧ ((MLApi.workerTrace eff ch failAt).getLastD MLApi.initialJob).error
            = some msg) := by
  cases failAt with
  | none =>
    refine ⟨?_, rfl, Or.inl rfl, fun _ => rfl, fun k msg h => nomatch h⟩
    simp [MLApi.workerTrace, MLApi.normalStates, MLApi.runningStates,
      MLApi.initialJob, MLApi.stepOk, MLApi.statusStep, List.chain'_cons]
  | some p =>
    obtain ⟨k, msg⟩ := p
    obtain ⟨hk1, hk2⟩ := hvalid k msg rfl
    interval_cases k <;>
      refine ⟨by simp [MLApi.workerTrace, MLApi.normalStates,
          MLApi.runningStates, MLApi.initialJob, MLApi.failJobState,
          MLApi.stepOk, MLApi.statusStep, List.chain'_cons],
        rfl, Or.inr rfl, ?_, ?_⟩ <;>
      first
        | (exact fun k2 msg2 h2 => by cases h2; exact ⟨rfl, rfl⟩)
        | (exact fun hc => nomatch hc)

/-- C9 witness: the amended theorem on the exception-free execution. -/
theorem C9_witness :
    List.Chain' MLApi.stepOk (MLApi.workerTrace 1 none none)
    ∧ (MLApi.workerTrace 1 none none).head? = some MLApi.initialJob
    ∧ (((MLApi.workerTrace 1 none none).getLastD MLApi.initialJob).status
          = .completed
        ∨ ((MLApi.workerTrace 1 none none).getLastD MLApi.initialJob).status
          = .failed)
    ∧ (((MLApi.workerTrace 1 none none).getLastD MLApi.initialJob).status
          = .completed →
        ((MLApi.workerTrace 1 none none).getLastD MLApi.initialJob).progress
          = 100)
    ∧ (∀ k msg, (none : Option (Nat × String)) = some (k, msg) →
        ((MLApi.workerTrace 1 none none).getLastD MLApi.initialJob).status
            = .failed
          ∧ ((MLApi.workerTrace 1 none none).getLastD MLApi.initialJob).error
            = some msg) :=
  C9_job_lifecycle 1 none none (fun _ _ h => nomatch h)
